import Mathlib

/-!
Verification development for the video-player repository: a shallow
embedding of the playback-state store (src/src/App.tsx), the autoplay
sequencer and drag handlers (src/src/components/VideoPlayer.tsx and the
MiniPlayer variants), and the catalog next-video lookup, together with
theorems settling the specification claims.
-/

/-- Mirrors the Video record of src/src/types/index.ts (the fields the
coordination logic reads; presentation-only fields are carried along as
plain strings). -/
structure Video where
  title : String
  slug : String
  categorySlug : String
  categoryName : String
  mp4Url : String
  thumbnailUrl : String
deriving DecidableEq, Repr

/-- The native media element as the store observes it: its current
position, its duration (none models NaN/undefined before metadata has
loaded), its paused flag and whether a source is attached. Times are
modelled as rationals. -/
structure MediaElement where
  mediaTime : ℚ
  mediaDuration : Option ℚ
  paused : Bool
  hasSrc : Bool
deriving DecidableEq, Repr

/-- JavaScript coercion in the source, written vid.duration || 0: an
unavailable duration (NaN/undefined, modelled as none) and a zero
duration both read as 0. -/
def jsOrZero : Option ℚ → ℚ
  | none => 0
  | some d => d

/-- Mirrors seekTo in src/src/App.tsx lines 113-117: the requested time
is clamped by Math.max(0, Math.min(time, vid.duration || 0)) and written
to the native position. -/
def seekTo (vid : MediaElement) (time : ℚ) : MediaElement :=
  { vid with mediaTime := max 0 (min time (jsOrZero vid.mediaDuration)) }

/-- Mirrors skipForward in src/src/App.tsx lines 119-123:
vid.currentTime = Math.min(vid.currentTime + 10, vid.duration || 0). -/
def skipForward (vid : MediaElement) : MediaElement :=
  { vid with mediaTime := min (vid.mediaTime + 10) (jsOrZero vid.mediaDuration) }

/-- Mirrors skipBackward in src/src/App.tsx lines 125-129:
vid.currentTime = Math.max(vid.currentTime - 10, 0). -/
def skipBackward (vid : MediaElement) : MediaElement :=
  { vid with mediaTime := max (vid.mediaTime - 10) 0 }

/-- Mirrors togglePlayPause in src/src/App.tsx lines 103-111: if the
element reports paused, request play, else request pause; the paused flag
of the element flips, while the store's isPlaying is only updated later
by the play/pause events. -/
def togglePlayPause (vid : MediaElement) : MediaElement :=
  if vid.paused then { vid with paused := false } else { vid with paused := true }

/-- The React state of App (src/src/App.tsx lines 12-18): the
PlaybackSession of the spec. The view mode is carried as the pair of
booleans isMinimized/isPip exactly as in the source. -/
structure AppState where
  currentVideo : Option Video
  isMinimized : Bool
  isPip : Bool
  isPlaying : Bool
  currentTime : ℚ
  duration : ℚ
  buffered : ℚ
deriving DecidableEq, Repr

/-- Initial App state (all useState initialisers in src/src/App.tsx). -/
def appInit : AppState :=
  { currentVideo := none, isMinimized := false, isPip := false,
    isPlaying := false, currentTime := 0, duration := 0, buffered := 0 }

/-- Mirrors playVideo in src/src/App.tsx lines 57-66: sets the current
video, leaves Minimized/PiP, optimistically sets isPlaying to true and
resets time, duration and buffered to 0. -/
def playVideo (s : AppState) (video : Video) : AppState :=
  { s with currentVideo := some video, isMinimized := false, isPip := false,
           isPlaying := true, currentTime := 0, duration := 0, buffered := 0 }

/-- Mirrors minimizePlayer in src/src/App.tsx lines 68-71. -/
def minimizePlayer (s : AppState) : AppState :=
  { s with isMinimized := true, isPip := false }

/-- Mirrors maximizePlayer in src/src/App.tsx lines 73-76. -/
def maximizePlayer (s : AppState) : AppState :=
  { s with isMinimized := false, isPip := false }

/-- Mirrors enterPip in src/src/App.tsx lines 78-81. -/
def enterPip (s : AppState) : AppState :=
  { s with isPip := true, isMinimized := false }

/-- Mirrors exitPip in src/src/App.tsx lines 83-86. -/
def exitPip (s : AppState) : AppState :=
  { s with isPip := false, isMinimized := false }

/-- Mirrors closePlayer in src/src/App.tsx lines 88-101, state part
only: clears the current video, leaves Minimized/PiP, sets isPlaying to
false and resets currentTime and duration to 0. Note that the source
does not reset the buffered field here. -/
def closePlayer (s : AppState) : AppState :=
  { s with currentVideo := none, isMinimized := false, isPip := false,
           isPlaying := false, currentTime := 0, duration := 0 }

/-- The four view modes of the spec. -/
inductive ViewMode
  | Hidden
  | Full
  | Minimized
  | PictureInPicture
deriving DecidableEq, Repr

/-- Mounting condition of the full player (src/src/App.tsx line 170:
currentVideo and not isMinimized and not isPip). -/
def fullMounted (s : AppState) : Bool :=
  s.currentVideo.isSome && !s.isMinimized && !s.isPip

/-- Mounting condition of the mini player (src/src/App.tsx line 176:
currentVideo and isMinimized). -/
def miniMounted (s : AppState) : Bool :=
  s.currentVideo.isSome && s.isMinimized

/-- Mounting condition of the PiP player (src/src/App.tsx line 182:
currentVideo and isPip). -/
def pipMounted (s : AppState) : Bool :=
  s.currentVideo.isSome && s.isPip

/-- Number of player views mounted at once. -/
def mountedCount (s : AppState) : Nat :=
  (if fullMounted s then 1 else 0) + (if miniMounted s then 1 else 0) +
    (if pipMounted s then 1 else 0)

/-- The view mode as determined by the mounting conditions of
src/src/App.tsx lines 169-185. -/
def viewMode (s : AppState) : ViewMode :=
  if fullMounted s then ViewMode.Full
  else if miniMounted s then ViewMode.Minimized
  else if pipMounted s then ViewMode.PictureInPicture
  else ViewMode.Hidden

/-- Media-event handlers of the mirroring effect in src/src/App.tsx
lines 22-55, as state transformers. onPlay sets isPlaying true. -/
def onPlay (s : AppState) : AppState := { s with isPlaying := true }

/-- onPause handler (src/src/App.tsx line 27). -/
def onPause (s : AppState) : AppState := { s with isPlaying := false }

/-- onTimeUpdate handler (src/src/App.tsx line 28): copies the native
position into currentTime. -/
def onTimeUpdate (s : AppState) (t : ℚ) : AppState := { s with currentTime := t }

/-- onDurationChange handler (src/src/App.tsx line 29): copies
vid.duration || 0 into duration. -/
def onDurationChange (s : AppState) (d : Option ℚ) : AppState :=
  { s with duration := jsOrZero d }

/-- onProgress handler (src/src/App.tsx lines 30-34): copies the end of
the last buffered range into buffered. -/
def onProgress (s : AppState) (b : ℚ) : AppState := { s with buffered := b }

/-- onLoadedMetadata handler (src/src/App.tsx lines 35-38). -/
def onLoadedMetadata (s : AppState) (d : Option ℚ) : AppState :=
  { s with duration := jsOrZero d, currentTime := 0 }

/-- States of the App reachable from the initial state through the store
operations and the media-event handlers. -/
inductive Reachable : AppState → Prop
  | init : Reachable appInit
  | play (s : AppState) (v : Video) : Reachable s → Reachable (playVideo s v)
  | minimize (s : AppState) : Reachable s → Reachable (minimizePlayer s)
  | maximize (s : AppState) : Reachable s → Reachable (maximizePlayer s)
  | pipIn (s : AppState) : Reachable s → Reachable (enterPip s)
  | pipOut (s : AppState) : Reachable s → Reachable (exitPip s)
  | close (s : AppState) : Reachable s → Reachable (closePlayer s)
  | evPlay (s : AppState) : Reachable s → Reachable (onPlay s)
  | evPause (s : AppState) : Reachable s → Reachable (onPause s)
  | evTime (s : AppState) (t : ℚ) : Reachable s → Reachable (onTimeUpdate s t)
  | evDur (s : AppState) (d : Option ℚ) : Reachable s → Reachable (onDurationChange s d)
  | evProg (s : AppState) (b : ℚ) : Reachable s → Reachable (onProgress s b)
  | evMeta (s : AppState) (d : Option ℚ) : Reachable s → Reachable (onLoadedMetadata s d)

/-- Interval-timer bookkeeping of the autoplay countdown in
src/src/components/VideoPlayer.tsx: the list of interval timers currently
live in the browser (in creation order, identified by allocation number),
the countdownRef holding the id of the most recently created interval,
and the next fresh id. -/
structure TimerSys where
  intervals : List Nat
  ref : Option Nat
  nextId : Nat
deriving DecidableEq, Repr

/-- Timer state at mount: no interval live, countdownRef null. -/
def timersInit : TimerSys := { intervals := [], ref := none, nextId := 0 }

/-- A clearInterval call: removes the interval with the given id from the
live set (a no-op when it is not live). -/
def clearIntervalSys (t : TimerSys) (i : Nat) : TimerSys :=
  { t with intervals := t.intervals.filter (fun j => j != i) }

/-- Timer effect of startAutoplayCountdown
(src/src/components/VideoPlayer.tsx lines 95-111): the source assigns
countdownRef.current = setInterval(...) directly, overwriting the ref
WITHOUT clearing any interval it previously held, so a previously
started interval stays live. -/
def startAutoplayCountdownTimers (t : TimerSys) : TimerSys :=
  { intervals := t.intervals ++ [t.nextId], ref := some t.nextId,
    nextId := t.nextId + 1 }

/-- Timer effect of cancelAutoplay (src/src/components/VideoPlayer.tsx
lines 113-117): if (countdownRef.current) clearInterval(countdownRef.current);
the ref itself is not nulled. -/
def cancelAutoplayTimers (t : TimerSys) : TimerSys :=
  match t.ref with
  | some i => clearIntervalSys t i
  | none => t

/-- Timer effect of the unmount cleanup effect
(src/src/components/VideoPlayer.tsx lines 119-123): identical clearing of
the interval currently held by countdownRef. -/
def unmountCleanupTimers (t : TimerSys) : TimerSys :=
  cancelAutoplayTimers t

/-- The whole player system: the App state, the shared native media
element and the countdown timer bookkeeping. -/
structure PlayerSys where
  app : AppState
  media : MediaElement
  timers : TimerSys
deriving DecidableEq, Repr

/-- System-level playVideo: the App state mutation of src/src/App.tsx
lines 57-66 together with the load-and-play effect of
src/src/components/VideoPlayer.tsx lines 35-41 (src set, load resets the
native position and invalidates duration, playback requested). The App
operation itself does not touch the countdown timers. -/
def sysPlayVideo (s : PlayerSys) (v : Video) : PlayerSys :=
  { app := playVideo s.app v,
    media := { mediaTime := 0, mediaDuration := none, paused := false,
               hasSrc := true },
    timers := s.timers }

/-- System-level close: closePlayer of src/src/App.tsx lines 88-101
(pause, remove src, load, reset state) composed with the VideoPlayer
unmount cleanup of src/src/components/VideoPlayer.tsx lines 119-123,
which clears the interval currently held by countdownRef (the full
player is unmounted whenever currentVideo becomes null). -/
def sysClosePlayer (s : PlayerSys) : PlayerSys :=
  { app := closePlayer s.app,
    media := { mediaTime := 0, mediaDuration := none, paused := true,
               hasSrc := false },
    timers := unmountCleanupTimers s.timers }

/-- System-level minimizePlayer: pure view-mode change, media and timers
untouched by the operation. -/
def sysMinimizePlayer (s : PlayerSys) : PlayerSys :=
  { s with app := minimizePlayer s.app }

/-- System-level maximizePlayer. -/
def sysMaximizePlayer (s : PlayerSys) : PlayerSys :=
  { s with app := maximizePlayer s.app }

/-- System-level enterPip. -/
def sysEnterPip (s : PlayerSys) : PlayerSys :=
  { s with app := enterPip s.app }

/-- System-level exitPip. -/
def sysExitPip (s : PlayerSys) : PlayerSys :=
  { s with app := exitPip s.app }

/-- System-level togglePlayPause: drives only the media element; the
isPlaying field is left to the play/pause event handlers. -/
def sysTogglePlayPause (s : PlayerSys) : PlayerSys :=
  { s with media := togglePlayPause s.media }

/-- System-level seekTo: drives only the media element. -/
def sysSeekTo (s : PlayerSys) (time : ℚ) : PlayerSys :=
  { s with media := seekTo s.media time }

/-- System-level skipForward. -/
def sysSkipForward (s : PlayerSys) : PlayerSys :=
  { s with media := skipForward s.media }

/-- System-level skipBackward. -/
def sysSkipBackward (s : PlayerSys) : PlayerSys :=
  { s with media := skipBackward s.media }

/-- Counter aspect of the autoplay sequencer of
src/src/components/VideoPlayer.tsx lines 95-117: Idle, Counting with a
target and remaining seconds, or PlayNext once playVideo(target) has
been invoked. -/
inductive AutoplaySeq
  | idle : AutoplaySeq
  | counting : Video → Nat → AutoplaySeq
  | playNext : Video → AutoplaySeq
deriving DecidableEq, Repr

/-- Counter effect of startAutoplayCountdown: setAutoplayCountdown(5)
and a 1-second interval begins. -/
def autoplayStart (target : Video) : AutoplaySeq :=
  AutoplaySeq.counting target 5

/-- One 1-second interval tick (src/src/components/VideoPlayer.tsx lines
100-110): if the previous value is at most 1 the interval clears itself
and playVideo(target) fires, else the counter decrements by one. -/
def autoplayTick : AutoplaySeq → AutoplaySeq
  | AutoplaySeq.counting t r =>
      if r ≤ 1 then AutoplaySeq.playNext t else AutoplaySeq.counting t (r - 1)
  | s => s

/-- Counter effect of cancelAutoplay (src/src/components/VideoPlayer.tsx
lines 113-117): the interval is cleared and the overlay dismissed, so a
running countdown returns to idle; no playVideo occurs. -/
def autoplayCancel : AutoplaySeq → AutoplaySeq
  | AutoplaySeq.counting _ _ => AutoplaySeq.idle
  | s => s

/-- Possible view-mode transition requests issued by a drag handler. -/
inductive DragAction
  | maximizeReq
  | closeReq
  | minimizeReq
deriving DecidableEq, Repr

/-- Mirrors handleDragEnd of the MiniPlayer (src/unnamed/part_000 lines
15-18): two successive if statements, one for maximize, one for close;
the list records the transition requests issued in order. -/
def handleDragEndMini (offsetY velocityY : ℚ) : List DragAction :=
  (if offsetY < -50 ∧ velocityY < -100 then [DragAction.maximizeReq] else []) ++
    (if offsetY > 50 ∧ velocityY > 100 then [DragAction.closeReq] else [])

/-- Mirrors handleDragEnd of the full player
(src/src/components/VideoPlayer.tsx lines 149-152): offset.y beyond 120
and velocity.y beyond 20 trigger minimizePlayer. -/
def handleDragEndFull (offsetY velocityY : ℚ) : List DragAction :=
  if offsetY > 120 ∧ velocityY > 20 then [DragAction.minimizeReq] else []

/-- Mirrors handleDragEnd of the full-player variant in
src/unnamed/part_003 line 209: offset.y beyond 100 and velocity.y beyond
20 trigger minimizePlayer. -/
def handleDragEndFullAlt (offsetY velocityY : ℚ) : List DragAction :=
  if offsetY > 100 ∧ velocityY > 20 then [DragAction.minimizeReq] else []

/-- Modelled from the spec: the repository imports getNextVideo from
src/data/videos.ts, a file absent from the sources; section 4.1 of the
spec defines it as deterministic lookup of the next video after the
current one in catalog order within the same category, null when the
current video is last in its category, never wrapping, never crossing
categories. The catalog is the ordered list of all videos; the current
video is located by its slug (its stable unique identifier). -/
def getNextVideo (catalog : List Video) (current : Video) : Option Video :=
  match catalog.dropWhile (fun x => x.slug != current.slug) with
  | [] => none
  | _ :: rest => rest.find? (fun x => x.categorySlug == current.categorySlug)

/-- C5: for every input t, including negative values and values
exceeding the duration, seekTo never leaves the native position outside
the interval from 0 to the duration: the source clamps the request with
Math.max(0, Math.min(time, vid.duration || 0)). -/
theorem seekTo_position_in_range (vid : MediaElement) (t : ℚ)
    (h : 0 ≤ jsOrZero vid.mediaDuration) :
    0 ≤ (seekTo vid t).mediaTime ∧
      (seekTo vid t).mediaTime ≤ jsOrZero vid.mediaDuration := by
  constructor
  · exact le_max_left 0 _
  · exact max_le h (min_le_right _ _)

/-- Witness for C5 at a concrete element (duration 20, request 100). -/
theorem seekTo_position_in_range_witness :
    0 ≤ (seekTo (MediaElement.mk 3 (some 20) false true) 100).mediaTime ∧
      (seekTo (MediaElement.mk 3 (some 20) false true) 100).mediaTime ≤
        jsOrZero (some 20) :=
  seekTo_position_in_range (MediaElement.mk 3 (some 20) false true) 100 (by norm_num [jsOrZero])

/-- C6: from any position t with 10 at most t and t at most duration
minus 10, skipForward then skipBackward returns the native position to
exactly t, each skipping by the fixed 10-second offset with clamping. -/
theorem skip_forward_backward_roundtrip (vid : MediaElement) (d : ℚ)
    (hdur : vid.mediaDuration = some d) (h1 : 10 ≤ vid.mediaTime)
    (h2 : vid.mediaTime ≤ d - 10) :
    (skipBackward (skipForward vid)).mediaTime = vid.mediaTime := by
  have hd : jsOrZero vid.mediaDuration = d := by rw [hdur]; rfl
  show max (min (vid.mediaTime + 10) (jsOrZero vid.mediaDuration) - 10) 0 =
    vid.mediaTime
  rw [hd, min_eq_left (by linarith : vid.mediaTime + 10 ≤ d)]
  have hsub : vid.mediaTime + 10 - 10 = vid.mediaTime := by ring
  rw [hsub]
  exact max_eq_left (by linarith)

/-- Witness for C6 at position 15 of a 60-second element. -/
theorem skip_forward_backward_roundtrip_witness :
    (skipBackward (skipForward (MediaElement.mk 15 (some 60) false true))).mediaTime =
      (MediaElement.mk 15 (some 60) false true).mediaTime :=
  skip_forward_backward_roundtrip (MediaElement.mk 15 (some 60) false true) 60 rfl
    (by norm_num) (by norm_num)

/-- C10: before metadata has loaded (duration NaN, undefined or 0, so
that vid.duration || 0 reads 0), seekTo sets the native position to
exactly 0 for every nonnegative request, and skipForward likewise sets
it to 0 from every nonnegative position. -/
theorem seek_before_metadata_zero (vid : MediaElement) (t : ℚ)
    (hdur : vid.mediaDuration = none ∨ vid.mediaDuration = some 0)
    (ht : 0 ≤ t) (hcur : 0 ≤ vid.mediaTime) :
    (seekTo vid t).mediaTime = 0 ∧ (skipForward vid).mediaTime = 0 := by
  have h0 : jsOrZero vid.mediaDuration = 0 := by
    rcases hdur with h | h <;> simp [h, jsOrZero]
  constructor
  · show max 0 (min t (jsOrZero vid.mediaDuration)) = 0
    rw [h0]
    exact max_eq_left (min_le_right t 0)
  · show min (vid.mediaTime + 10) (jsOrZero vid.mediaDuration) = 0
    rw [h0]
    exact min_eq_right (by linarith)

/-- Witness for C10 at a freshly created element and request 42. -/
theorem seek_before_metadata_zero_witness :
    (seekTo (MediaElement.mk 0 none true false) 42).mediaTime = 0 ∧
      (skipForward (MediaElement.mk 0 none true false)).mediaTime = 0 :=
  seek_before_metadata_zero (MediaElement.mk 0 none true false) 42 (Or.inl rfl)
    (by norm_num) (by norm_num)

/-- C8: a drag transition fires exactly when both the offset and the
velocity threshold hold, and neither alone triggers it: from Minimized,
offset below -50 with velocity below -100 requests maximize and offset
above 50 with velocity above 100 requests close; from Full, offset above
the variant threshold (120 in src/src/components/VideoPlayer.tsx, 100 in
src/unnamed/part_003) with velocity above 20 requests minimize; every
other combination requests nothing. -/
theorem drag_transition_thresholds (o v : ℚ) :
    (DragAction.maximizeReq ∈ handleDragEndMini o v ↔ o < -50 ∧ v < -100) ∧
    (DragAction.closeReq ∈ handleDragEndMini o v ↔ o > 50 ∧ v > 100) ∧
    (handleDragEndMini o v = [] ↔ ¬(o < -50 ∧ v < -100) ∧ ¬(o > 50 ∧ v > 100)) ∧
    (handleDragEndFull o v = [DragAction.minimizeReq] ↔ o > 120 ∧ v > 20) ∧
    (handleDragEndFull o v = [] ↔ ¬(o > 120 ∧ v > 20)) ∧
    (handleDragEndFullAlt o v = [DragAction.minimizeReq] ↔ o > 100 ∧ v > 20) ∧
    (handleDragEndFullAlt o v = [] ↔ ¬(o > 100 ∧ v > 20)) := by
  refine ⟨?_, ?_, ?_, ?_, ?_, ?_, ?_⟩ <;>
    simp only [handleDragEndMini, handleDragEndFull, handleDragEndFullAlt] <;>
    split_ifs <;> simp_all

/-- Sample catalog videos used at concrete inputs. -/
def vidAlpha : Video :=
  { title := "Alpha", slug := "alpha", categorySlug := "cats",
    categoryName := "Cats", mp4Url := "a.mp4", thumbnailUrl := "a.jpg" }

/-- Second sample video, same category as vidAlpha. -/
def vidBeta : Video :=
  { title := "Beta", slug := "beta", categorySlug := "cats",
    categoryName := "Cats", mp4Url := "b.mp4", thumbnailUrl := "b.jpg" }

/-- Third sample video, different category. -/
def vidGamma : Video :=
  { title := "Gamma", slug := "gamma", categorySlug := "dogs",
    categoryName := "Dogs", mp4Url := "c.mp4", thumbnailUrl := "c.jpg" }

/-- A mid-session system state: vidAlpha playing full screen at 33
seconds, 47 seconds buffered, one countdown interval live. -/
def sysMidSession : PlayerSys :=
  { app := { currentVideo := some vidAlpha, isMinimized := false,
             isPip := false, isPlaying := true, currentTime := 33,
             duration := 120, buffered := 47 },
    media := { mediaTime := 33, mediaDuration := some 120, paused := false,
               hasSrc := true },
    timers := { intervals := [0], ref := some 0, nextId := 1 } }

/-- C1 counterexample: closePlayer does not reset the buffered field;
from a state with 47 seconds buffered, close leaves bufferedEnd at 47,
so close does not reset every transport field to zero. -/
theorem closePlayer_buffered_counterexample :
    ¬ (sysClosePlayer sysMidSession).app.buffered = 0 := by
  decide

/-- C1 amended: for every starting state, close results in
currentVideo = null, viewMode = Hidden, currentTime = 0, duration = 0,
isPlaying = false, and the countdown interval tracked by countdownRef is
cancelled; the buffered field is left unchanged rather than reset. -/
theorem closePlayer_resets (s : PlayerSys) :
    (sysClosePlayer s).app.currentVideo = none ∧
    viewMode (sysClosePlayer s).app = ViewMode.Hidden ∧
    (sysClosePlayer s).app.currentTime = 0 ∧
    (sysClosePlayer s).app.duration = 0 ∧
    (sysClosePlayer s).app.isPlaying = false ∧
    (sysClosePlayer s).app.buffered = s.app.buffered ∧
    (∀ i, s.timers.ref = some i → i ∉ (sysClosePlayer s).timers.intervals) := by
  refine ⟨rfl, ?_, rfl, rfl, rfl, rfl, ?_⟩
  · simp [sysClosePlayer, closePlayer, viewMode, fullMounted, miniMounted,
      pipMounted]
  · intro i hi
    simp [sysClosePlayer, unmountCleanupTimers, cancelAutoplayTimers, hi,
      clearIntervalSys, List.mem_filter]

/-- Witness for C1 amended at the concrete mid-session state. -/
theorem closePlayer_resets_witness :
    (sysClosePlayer sysMidSession).app.currentVideo = none ∧
    viewMode (sysClosePlayer sysMidSession).app = ViewMode.Hidden ∧
    (sysClosePlayer sysMidSession).app.currentTime = 0 ∧
    (sysClosePlayer sysMidSession).app.duration = 0 ∧
    (sysClosePlayer sysMidSession).app.isPlaying = false ∧
    (sysClosePlayer sysMidSession).app.buffered = sysMidSession.app.buffered ∧
    0 ∉ (sysClosePlayer sysMidSession).timers.intervals := by
  have h := closePlayer_resets sysMidSession
  exact ⟨h.1, h.2.1, h.2.2.1, h.2.2.2.1, h.2.2.2.2.1, h.2.2.2.2.2.1,
    h.2.2.2.2.2.2 0 rfl⟩

/-- C2: evaluation of the interval bookkeeping at the failing input.
Starting a countdown twice in a row (the source overwrites
countdownRef.current with a fresh setInterval without clearing the one
it held) leaves TWO intervals live, and both cancelAutoplay and the
unmount cleanup clear only the interval the ref currently holds, so the
first interval leaks and stays live. -/
theorem countdown_interval_leak :
    (startAutoplayCountdownTimers (startAutoplayCountdownTimers timersInit)).intervals
        = [0, 1] ∧
    (startAutoplayCountdownTimers (startAutoplayCountdownTimers timersInit)).intervals.length
        = 2 ∧
    (cancelAutoplayTimers
        (startAutoplayCountdownTimers (startAutoplayCountdownTimers timersInit))).intervals
        = [0] ∧
    (unmountCleanupTimers
        (startAutoplayCountdownTimers (startAutoplayCountdownTimers timersInit))).intervals
        = [0] := by
  decide

/-- C3 counterexample: playVideo itself sets isPlaying to true with no
native media notification involved; from the initial state, where
isPlaying is false, the operation flips it directly. -/
theorem isPlaying_optimistic_counterexample :
    (PlayerSys.mk appInit (MediaElement.mk 0 none true false) timersInit).app.isPlaying
        = false ∧
    (sysPlayVideo (PlayerSys.mk appInit (MediaElement.mk 0 none true false) timersInit)
        vidAlpha).app.isPlaying = true :=
  ⟨rfl, rfl⟩

/-- C3 amended: playVideo sets isPlaying to true optimistically and
close sets it to false directly; every other public operation
(togglePlayPause, seekTo, skipForward, skipBackward, minimize, maximize,
enterPip, exitPip) never updates isPlaying, which otherwise changes only
through the native play and pause event handlers. -/
theorem isPlaying_update_discipline (s : PlayerSys) (v : Video) (t : ℚ) :
    (sysPlayVideo s v).app.isPlaying = true ∧
    (sysClosePlayer s).app.isPlaying = false ∧
    (sysTogglePlayPause s).app.isPlaying = s.app.isPlaying ∧
    (sysSeekTo s t).app.isPlaying = s.app.isPlaying ∧
    (sysSkipForward s).app.isPlaying = s.app.isPlaying ∧
    (sysSkipBackward s).app.isPlaying = s.app.isPlaying ∧
    (sysMinimizePlayer s).app.isPlaying = s.app.isPlaying ∧
    (sysMaximizePlayer s).app.isPlaying = s.app.isPlaying ∧
    (sysEnterPip s).app.isPlaying = s.app.isPlaying ∧
    (sysExitPip s).app.isPlaying = s.app.isPlaying ∧
    (onPlay s.app).isPlaying = true ∧
    (onPause s.app).isPlaying = false :=
  ⟨rfl, rfl, rfl, rfl, rfl, rfl, rfl, rfl, rfl, rfl, rfl, rfl⟩

/-- In every reachable App state the two view-mode booleans are never
both set: each operation that sets one of them clears the other. -/
theorem reachable_not_min_and_pip (s : AppState) (h : Reachable s) :
    (s.isMinimized && s.isPip) = false := by
  induction h with
  | init => rfl
  | play s v _ _ => rfl
  | minimize s _ _ => simp [minimizePlayer]
  | maximize s _ _ => rfl
  | pipIn s _ _ => simp [enterPip]
  | pipOut s _ _ => rfl
  | close s _ _ => rfl
  | evPlay s _ ih => exact ih
  | evPause s _ ih => exact ih
  | evTime s t _ ih => exact ih
  | evDur s d _ ih => exact ih
  | evProg s b _ ih => exact ih
  | evMeta s d _ ih => exact ih

/-- C4: in every reachable state, a non-Hidden view mode implies a
current video, at most one of the Full, Minimized and PiP surfaces is
mounted whenever a video is current, and the Hidden mode co-occurs only
with currentVideo = null. -/
theorem view_mode_invariant (s : AppState) (h : Reachable s) :
    (viewMode s ≠ ViewMode.Hidden → s.currentVideo.isSome = true) ∧
    (s.currentVideo.isSome = true → mountedCount s ≤ 1) ∧
    (viewMode s = ViewMode.Hidden → s.currentVideo = none) := by
  have key := reachable_not_min_and_pip s h
  obtain ⟨cv, mn, pp, pl, ct, du, bu⟩ := s
  cases cv <;> cases mn <;> cases pp <;>
    simp_all [viewMode, fullMounted, miniMounted, pipMounted, mountedCount]

/-- Witness for C4 at the reachable state just after playVideo from the
initial state: a video is current there, so at most one surface is
mounted. -/
theorem view_mode_invariant_witness :
    mountedCount (playVideo appInit vidAlpha) ≤ 1 :=
  (view_mode_invariant (playVideo appInit vidAlpha)
    (Reachable.play appInit vidAlpha Reachable.init)).2.1 rfl

/-- C7: a countdown started at 5 decrements by one on each tick, still
counting with value 5 - k after any k under 5 ticks; after exactly 5
ticks playVideo(target) fires; cancelling after k under 5 ticks returns
the sequencer to Idle and no later tick can ever fire playVideo. -/
theorem autoplay_countdown_behaviour (target : Video) (k : Nat) (hk : k < 5) :
    (autoplayTick^[k] (autoplayStart target)
        = AutoplaySeq.counting target (5 - k)) ∧
    (autoplayTick^[5] (autoplayStart target) = AutoplaySeq.playNext target) ∧
    (autoplayCancel (autoplayTick^[k] (autoplayStart target))
        = AutoplaySeq.idle) ∧
    (∀ m, autoplayTick^[m]
        (autoplayCancel (autoplayTick^[k] (autoplayStart target)))
        = AutoplaySeq.idle) := by
  have hstep : autoplayTick^[k] (autoplayStart target)
      = AutoplaySeq.counting target (5 - k) := by
    interval_cases k <;> rfl
  refine ⟨hstep, rfl, ?_, ?_⟩
  · rw [hstep]; rfl
  · intro m
    rw [hstep]
    exact Function.iterate_fixed rfl m

/-- Witness for C7 at k = 3, with the post-cancel stability conjunct
instantiated at 7 further ticks. -/
theorem autoplay_countdown_behaviour_witness :
    (autoplayTick^[3] (autoplayStart vidBeta)
        = AutoplaySeq.counting vidBeta 2) ∧
    (autoplayTick^[5] (autoplayStart vidBeta) = AutoplaySeq.playNext vidBeta) ∧
    (autoplayCancel (autoplayTick^[3] (autoplayStart vidBeta))
        = AutoplaySeq.idle) ∧
    (autoplayTick^[7]
        (autoplayCancel (autoplayTick^[3] (autoplayStart vidBeta)))
        = AutoplaySeq.idle) :=
  ⟨(autoplay_countdown_behaviour vidBeta 3 (by decide)).1,
    (autoplay_countdown_behaviour vidBeta 3 (by decide)).2.1,
    (autoplay_countdown_behaviour vidBeta 3 (by decide)).2.2.1,
    (autoplay_countdown_behaviour vidBeta 3 (by decide)).2.2.2 7⟩

/-- C9: whenever getNextVideo returns a video (on a catalog whose slugs
are distinct, slugs being the stable unique identifiers), that video is
in the same category as the current one, is not the current video
itself, and sits strictly after the current video in catalog order - so
the lookup never wraps around and never crosses categories. -/
theorem getNextVideo_sound (catalog : List Video) (current w : Video)
    (hnd : (catalog.map Video.slug).Nodup)
    (hw : getNextVideo catalog current = some w) :
    w.categorySlug = current.categorySlug ∧ w.slug ≠ current.slug ∧
      ∃ pre c post, catalog = pre ++ c :: post ∧ c.slug = current.slug ∧
        w ∈ post := by
  have hw2 : ∃ c rest,
      catalog.dropWhile (fun x => x.slug != current.slug) = c :: rest ∧
        rest.find? (fun x => x.categorySlug == current.categorySlug) = some w := by
    unfold getNextVideo at hw
    cases hdrop : catalog.dropWhile (fun x => x.slug != current.slug) with
    | nil => rw [hdrop] at hw; exact absurd hw (by simp)
    | cons c rest => rw [hdrop] at hw; exact ⟨c, rest, rfl, hw⟩
  obtain ⟨c, rest, hdrop, hfind⟩ := hw2
  have hcat : w.categorySlug = current.categorySlug := by
    have hq := List.find?_some hfind
    simpa using hq
  have hwmem : w ∈ rest := List.mem_of_find?_eq_some hfind
  have hpc : (c.slug != current.slug) = false := by
    have h1 := List.head_dropWhile_not (fun x : Video => x.slug != current.slug)
      catalog (by simp [hdrop])
    simpa [hdrop] using h1
  have hcslug : c.slug = current.slug := by simpa using hpc
  have hsplit : catalog = catalog.takeWhile (fun x => x.slug != current.slug)
      ++ c :: rest := by
    have h2 := List.takeWhile_append_dropWhile
      (fun x : Video => x.slug != current.slug) catalog
    rw [hdrop] at h2
    exact h2.symm
  have hsubl : List.Sublist (c :: rest) catalog := by
    rw [← hdrop]
    exact List.dropWhile_sublist (fun x : Video => x.slug != current.slug)
  have hnd2 : ((c :: rest).map Video.slug).Nodup :=
    hnd.sublist (hsubl.map Video.slug)
  rw [List.map_cons] at hnd2
  have hcnot : c.slug ∉ rest.map Video.slug := (List.nodup_cons.mp hnd2).1
  have hwslug : w.slug ≠ current.slug := by
    intro he
    apply hcnot
    rw [hcslug, ← he]
    exact List.mem_map_of_mem Video.slug hwmem
  exact ⟨hcat, hwslug,
    catalog.takeWhile (fun x => x.slug != current.slug), c, rest,
    hsplit, hcslug, hwmem⟩

/-- Witness for C9 on the concrete three-video catalog: the successor of
vidAlpha is vidBeta, which shares its category and differs from it. -/
theorem getNextVideo_sound_witness :
    vidBeta.categorySlug = vidAlpha.categorySlug ∧
      vidBeta.slug ≠ vidAlpha.slug :=
  ⟨(getNextVideo_sound [vidAlpha, vidGamma, vidBeta] vidAlpha vidBeta
      (by decide) (by decide)).1,
    (getNextVideo_sound [vidAlpha, vidGamma, vidBeta] vidAlpha vidBeta
      (by decide) (by decide)).2.1⟩

